import Mathlib

/-!
# Verification of the OpenRegistry registry core

A shallow embedding of the OpenRegistry OCI/Docker Registry V2 server core:
the chunked/monolithic blob upload handlers, the upload transaction map,
manifest push, layer pull, tag listing, layer deletion and the ACL
middleware, translated from the Go source (`registry` package and
`auth/jwt_middleware.go`).  Handlers are modelled as pure functions from an
explicit registry state, the incoming request, and a store oracle (the
outcomes of the fallible metadata-store / object-store calls made during the
request) to a response, the successor state, and a trace of store events.
-/

set_option maxRecDepth 4096

/-! ## Bytes and SHA-256 content digests

The Go helper `digest` (used throughout the `registry` package) is not among
the provided source files; it is modelled from the spec: "Compute SHA-256
over a byte sequence and format as `sha256:<hex>`" (spec section 4.1).  The
implementation below is a complete executable SHA-256 over byte lists
(bytes are `Nat` values < 256, words are `Nat` values reduced modulo 2^32).
-/

/-- Reduce a `Nat` to a 32-bit machine word. -/
def w32 (n : Nat) : Nat := n % 4294967296

/-- 32-bit right rotation (input assumed < 2^32). -/
def rotr32 (x n : Nat) : Nat := w32 ((x >>> n) ||| (x <<< (32 - n)))

def bsig0 (x : Nat) : Nat := (rotr32 x 2) ^^^ (rotr32 x 13) ^^^ (rotr32 x 22)

def bsig1 (x : Nat) : Nat := (rotr32 x 6) ^^^ (rotr32 x 11) ^^^ (rotr32 x 25)

def ssig0 (x : Nat) : Nat := (rotr32 x 7) ^^^ (rotr32 x 18) ^^^ (x >>> 3)

def ssig1 (x : Nat) : Nat := (rotr32 x 17) ^^^ (rotr32 x 19) ^^^ (x >>> 10)

def chV (e f g : Nat) : Nat := (e &&& f) ^^^ ((e ^^^ 4294967295) &&& g)

def majV (a b c : Nat) : Nat := (a &&& b) ^^^ (a &&& c) ^^^ (b &&& c)

/-- The 64 SHA-256 round constants (FIPS 180-4, written in decimal). -/
def sha256K : List Nat :=
  [1116352408, 1899447441, 3049323471, 3921009573, 961987163, 1508970993,
   2453635748, 2870763221, 3624381080, 310598401, 607225278, 1426881987,
   1925078388, 2162078206, 2614888103, 3248222580, 3835390401, 4022224774,
   264347078, 604807628, 770255983, 1249150122, 1555081692, 1996064986,
   2554220882, 2821834349, 2952996808, 3210313671, 3336571891, 3584528711,
   113926993, 338241895, 666307205, 773529912, 1294757372, 1396182291,
   1695183700, 1986661051, 2177026350, 2456956037, 2730485921, 2820302411,
   3259730800, 3345764771, 3516065817, 3600352804, 4094571909, 275423344,
   430227734, 506948616, 659060556, 883997877, 958139571, 1322822218,
   1537002063, 1747873779, 1955562222, 2024104815, 2227730452, 2361852424,
   2428436474, 2756734187, 3204031479, 3329325298]

/-- The SHA-256 initial hash value (FIPS 180-4, written in decimal). -/
def sha256H0 : List Nat :=
  [1779033703, 3144134277, 1013904242, 2773480762,
   1359893119, 2600822924, 528734635, 1541459225]

/-- Big-endian 8-byte encoding of a natural number (the message bit length). -/
def be64bytes (n : Nat) : List Nat :=
  [(n >>> 56) % 256, (n >>> 48) % 256, (n >>> 40) % 256, (n >>> 32) % 256,
   (n >>> 24) % 256, (n >>> 16) % 256, (n >>> 8) % 256, n % 256]

/-- SHA-256 padding: append `0x80`, zero bytes up to 56 mod 64, then the
bit length as a big-endian 64-bit integer. -/
def sha256Pad (msg : List Nat) : List Nat :=
  msg ++ [128] ++ List.replicate ((119 - msg.length % 64) % 64) 0 ++ be64bytes (msg.length * 8)

/-- Assemble a big-endian 32-bit word from four bytes. -/
def word32OfBytes : List Nat → Nat
  | [a, b, c, d] => a * 16777216 + b * 65536 + c * 256 + d
  | _ => 0

/-- The sixteen 32-bit message words of 64-byte chunk number `chunkIdx`. -/
def chunkWords (padded : List Nat) (chunkIdx : Nat) : List Nat :=
  (List.range 16).map (fun i => word32OfBytes ((padded.drop (chunkIdx * 64 + i * 4)).take 4))

/-- One step of the message-schedule extension; the list holds the schedule
so far in reverse (most recent word first). -/
def extendStep (ws : List Nat) : List Nat :=
  w32 (ssig1 (ws.getD 1 0) + ws.getD 6 0 + ssig0 (ws.getD 14 0) + ws.getD 15 0) :: ws

/-- Extend sixteen message words to the full 64-word schedule. -/
def sha256Schedule (w16 : List Nat) : List Nat :=
  (extendStep^[48] w16.reverse).reverse

/-- The eight working variables of the SHA-256 compression function. -/
structure Hash8 where
  a : Nat
  b : Nat
  c : Nat
  d : Nat
  e : Nat
  f : Nat
  g : Nat
  h : Nat
  deriving DecidableEq

/-- One SHA-256 compression round, consuming one `(K, W)` pair. -/
def sha256Round (st : Hash8) (kw : Nat × Nat) : Hash8 :=
  let t1 := w32 (st.h + bsig1 st.e + chV st.e st.f st.g + kw.1 + kw.2)
  let t2 := w32 (bsig0 st.a + majV st.a st.b st.c)
  { a := w32 (t1 + t2), b := st.a, c := st.b, d := st.c,
    e := w32 (st.d + t1), f := st.e, g := st.f, h := st.g }

/-- Compress one 64-byte chunk (given as 16 words) into the running hash. -/
def sha256Compress (hs : List Nat) (w16 : List Nat) : List Nat :=
  let init : Hash8 :=
    { a := hs.getD 0 0, b := hs.getD 1 0, c := hs.getD 2 0, d := hs.getD 3 0,
      e := hs.getD 4 0, f := hs.getD 5 0, g := hs.getD 6 0, h := hs.getD 7 0 }
  let fin := (sha256K.zip (sha256Schedule w16)).foldl sha256Round init
  [w32 (hs.getD 0 0 + fin.a), w32 (hs.getD 1 0 + fin.b), w32 (hs.getD 2 0 + fin.c),
   w32 (hs.getD 3 0 + fin.d), w32 (hs.getD 4 0 + fin.e), w32 (hs.getD 5 0 + fin.f),
   w32 (hs.getD 6 0 + fin.g), w32 (hs.getD 7 0 + fin.h)]

/-- SHA-256 of a byte list, as eight 32-bit words. -/
def sha256Words (msg : List Nat) : List Nat :=
  let padded := sha256Pad msg
  (List.range (padded.length / 64)).foldl
    (fun hs i => sha256Compress hs (chunkWords padded i)) sha256H0

/-- Lower-case hex digit. -/
def hexChar (n : Nat) : Char := if n < 10 then Char.ofNat (48 + n) else Char.ofNat (87 + n)

/-- Eight hex characters of one 32-bit word, most significant first. -/
def hexWord8 (w : Nat) : List Char :=
  (List.range 8).map (fun i => hexChar ((w >>> (28 - 4 * i)) % 16))

/-- Modelled from the spec: the Go `digest` helper of the `registry` package
is not among the provided source files; per spec section 4.1 it computes
SHA-256 over the bytes and formats the result as `sha256:<hex>`. -/
def digest (bz : List Nat) : String :=
  "sha256:" ++ String.mk ((sha256Words bz).foldr (fun w acc => hexWord8 w ++ acc) [])

/-- Byte list of an ASCII string. -/
def strBytes (s : String) : List Nat := s.data.map Char.toNat

example : digest (strBytes "hello") =
    "sha256:2cf24dba5fb0a30e26e83b2ac5b9e29e1b161e5c1fa7425e73043362938b9824" := by decide

example : digest (strBytes "hello world") =
    "sha256:b94d27b9934d3e08a52e52d7da7dabfac484efe37a5380ee9088f7ace2efcde9" := by decide

example : digest [] =
    "sha256:e3b0c44298fc1c149afbf4c8996fb92427ae41e4649b934ca495991b7852b855" := by decide

/-! ## String-keyed maps

Go maps (`r.b.uploads : map[string][]byte`, `r.txnMap : map[string]TxnStore`)
are embedded as association lists.  A missing key reads as `none`; `mapFindD`
with default `[]` mirrors Go's zero-value read of a missing `[]byte` entry. -/

def mapFind {α : Type} : List (String × α) → String → Option α
  | [], _ => none
  | (k, v) :: rest, key => if k = key then some v else mapFind rest key

def mapFindD {α : Type} (m : List (String × α)) (k : String) (d : α) : α :=
  (mapFind m k).getD d

def mapInsert {α : Type} : List (String × α) → String → α → List (String × α)
  | [], k, v => [(k, v)]
  | (k0, v0) :: rest, k, v =>
      if k0 = k then (k, v) :: rest else (k0, v0) :: mapInsert rest k v

def mapErase {α : Type} : List (String × α) → String → List (String × α)
  | [], _ => []
  | (k0, v0) :: rest, k =>
      if k0 = k then mapErase rest k else (k0, v0) :: mapErase rest k

/-! ## Data model

Row types translated from `types` (`types.Blob`, `types.LayerV2`,
`types.ConfigV2`, `types.ImageManifestV2`) and the registry's `TxnStore`.
`namespace` is a Lean keyword, so that field is spelled `nmspace`.  Registry
error codes (`RegistryErrorCodeDigestInvalid`, ...) are used by the handlers
but their constant declarations are not among the provided source files;
they are embedded as an inductive type with one constructor per code. -/

inductive ErrCode where
  | BlobUnknown
  | BlobUploadInvalid
  | BlobUploadUnknown
  | DigestInvalid
  | ManifestBlobUnknown
  | ManifestInvalid
  | ManifestUnknown
  | NameInvalid
  | TagInvalid
  | Unknown
  deriving DecidableEq

/-- `types.Blob`: one stored blob fragment row.  `rangeEnd` is Go's
`uint32(len(bz) - 1)`, so an empty fragment wraps to `2^32 - 1`. -/
structure Blob where
  digest : String
  skylink : String
  uuid : String
  rangeStart : Nat
  rangeEnd : Nat
  deriving DecidableEq

/-- `types.LayerV2`: one stored layer row. -/
structure LayerV2 where
  mediaType : String
  digest : String
  skynetLink : String
  uuid : String
  blobDigests : List String
  size : Nat
  deriving DecidableEq

/-- `types.ConfigV2`: the config row written by manifest push. -/
structure ConfigV2 where
  uuid : String
  nmspace : String
  reference : String
  digest : String
  skylink : String
  mediaType : String
  layers : List String
  size : Nat
  deriving DecidableEq

/-- `types.ImageManifestV2`: the manifest row written by manifest push. -/
structure ImageManifestV2 where
  uuid : String
  nmspace : String
  mediaType : String
  schemaVersion : Nat
  deriving DecidableEq

/-- The registry's per-upload transaction record (`TxnStore`): the open
metadata transaction (an abstract handle), the fragment digests committed so
far, and the 30-minute timeout. -/
structure TxnStore where
  txn : Nat
  blobDigests : List String
  timeoutMinutes : Nat
  deriving DecidableEq

/-- One metadata-store / object-store call made during a request.  A trace
of these events is the observable effect of a handler on the stores. -/
inductive Event where
  | objectStoreUpload (link : String) (bytes : List Nat)
  | newTxn (t : Nat)
  | setBlob (t : Nat) (b : Blob)
  | setLayer (t : Nat) (l : LayerV2)
  | setManifest (t : Nat) (m : ImageManifestV2)
  | setConfig (t : Nat) (c : ConfigV2)
  | commitTxn (t : Nat)
  | abortTxn (t : Nat)
  | deleteLayerRow (t : Nat) (d : String)
  | deleteBlobRow (t : Nat) (d : String)
  deriving DecidableEq

/-- The HTTP response observable at the client: status, registry error code
(the error envelope's `code`), the relevant response headers, and the raw
octet-stream payload (`blobBody`, used by layer pull). -/
structure Response where
  status : Nat
  errorCode : Option ErrCode := none
  location : Option String := none
  rangeHeader : Option String := none
  dockerContentDigest : Option String := none
  dockerUploadUuid : Option String := none
  contentLength : Option String := none
  blobBody : List Nat := []
  deriving DecidableEq

/-- The registry's mutable state shared across blob-upload requests:
`b.uploads` (uuid → accumulated byte buffer) and `r.txnMap`
(uuid → open transaction record). -/
structure BlobsState where
  uploads : List (String × List Nat)
  txnMap : List (String × TxnStore)
  deriving DecidableEq

/-- Outcomes of the fallible store calls a handler may make during one
request (`none` = the call succeeds), plus the external data those calls
return: the transaction handle produced by `NewTxn` and the object-store
link produced by `skynet.Upload` (a function of namespace, digest and
bytes). -/
structure StoreOracle where
  setBlobErr : Option String := none
  setLayerErr : Option String := none
  setManifestErr : Option String := none
  setConfigErr : Option String := none
  commitErr : Option String := none
  abortErr : Option String := none
  newTxnErr : Option String := none
  newTxnId : Nat := 0
  uploadErr : Option String := none
  uploadLink : String → String → List Nat → String := fun ns d _ => ns ++ "/" ++ d


/-! ## Handler embeddings -/

/-- A chunked-upload `PATCH /v2/<name>/blobs/uploads/<uuid>` request.
`contentRange` is the parsed `Content-Range: <start>-<end>` header
(`none` when the header is absent; requests whose header fails
`fmt.Sscanf` parsing are answered 416 before any state is touched and are
outside this embedding). -/
structure PatchRequest where
  nmspace : String
  uuid : String
  contentRange : Option (Nat × Nat)
  body : List Nat

/-- Embeds `blobs.blobTransaction` (registry blob handlers file): builds the
fragment row for `bz`, looks up the open transaction for `uuid`, calls
`SetBlob` inside it, and on a `SetBlob` error calls `Abort` and returns the
*abort's* result (so a successful abort yields `nil`, exactly as in the
source); on success appends the fragment digest to the transaction record.
Returns (error, updated txnMap, store events). -/
def blobTransaction (o : StoreOracle) (txnMap : List (String × TxnStore))
    (bz : List Nat) (uuid : String) :
    Option String × List (String × TxnStore) × List Event :=
  let blob : Blob :=
    { digest := digest bz, skylink := "", uuid := uuid,
      rangeStart := 0, rangeEnd := (bz.length + 4294967295) % 4294967296 }
  match mapFind txnMap uuid with
  | none => (some ("txn has not been initialised for uuid - " ++ uuid), txnMap, [])
  | some txnOp =>
      match o.setBlobErr with
      | some _ =>
          (o.abortErr, txnMap, [Event.setBlob txnOp.txn blob, Event.abortTxn txnOp.txn])
      | none =>
          (none,
           mapInsert txnMap uuid { txnOp with blobDigests := txnOp.blobDigests ++ [blob.digest] },
           [Event.setBlob txnOp.txn blob])

/-- Embeds `blobs.UploadBlob` (chunked `PATCH`).  Without a `Content-Range`
header a second stream write is rejected 400; otherwise the body becomes the
initial buffer.  With a header, the chunk is accepted only when its start
equals the current buffer length, the buffer is extended, and
`blobTransaction` is run on the *whole accumulated buffer*. -/
def uploadBlob (o : StoreOracle) (st : BlobsState) (req : PatchRequest) :
    Response × BlobsState × List Event :=
  match req.contentRange with
  | none =>
      if (mapFind st.uploads req.uuid).isSome then
        ({ status := 400, errorCode := some ErrCode.BlobUploadInvalid }, st, [])
      else
        let bz := req.body
        let st1 : BlobsState := { st with uploads := mapInsert st.uploads req.uuid bz }
        match blobTransaction o st1.txnMap bz req.uuid with
        | (some _, tm, evs) =>
            ({ status := 400, errorCode := some ErrCode.BlobUploadInvalid },
             { st1 with txnMap := tm }, evs)
        | (none, tm, evs) =>
            ({ status := 202,
               location := some ("/v2/" ++ req.nmspace ++ "/blobs/uploads/" ++ req.uuid),
               rangeHeader := some ("0-" ++ toString ((bz.length : Int) - 1)) },
             { st1 with txnMap := tm }, evs)
  | some (start, _) =>
      if start = (mapFindD st.uploads req.uuid []).length then
        let newBuf := mapFindD st.uploads req.uuid [] ++ req.body
        let st1 : BlobsState := { st with uploads := mapInsert st.uploads req.uuid newBuf }
        match blobTransaction o st1.txnMap newBuf req.uuid with
        | (some _, tm, evs) =>
            ({ status := 400, errorCode := some ErrCode.BlobUploadInvalid },
             { st1 with txnMap := tm }, evs)
        | (none, tm, evs) =>
            ({ status := 202,
               location := some ("/v2/" ++ req.nmspace ++ "/blobs/uploads/" ++ req.uuid),
               rangeHeader := some ("0-" ++ toString ((newBuf.length : Int) - 1)) },
             { st1 with txnMap := tm }, evs)
      else
        ({ status := 416, errorCode := some ErrCode.BlobUploadUnknown }, st, [])

/-- A finalizing `PUT /v2/<name>/blobs/uploads/<uuid>?digest=<d>` request. -/
structure PutRequest where
  nmspace : String
  uuid : String
  digestParam : String
  body : List Nat

/-- Embeds `registry.CompleteUpload`: append the trailing body to the
accumulated buffer, hash it, discard the in-memory buffer, reject a digest
mismatch with `400 DIGEST_INVALID`, otherwise upload to the object store,
write the layer row inside the upload's open transaction and commit it. -/
def completeUpload (o : StoreOracle) (st : BlobsState) (req : PutRequest) :
    Response × BlobsState × List Event :=
  let buf := req.body
  let ubuf := mapFindD st.uploads req.uuid [] ++ buf
  let ourHash := digest ubuf
  let st1 : BlobsState := { st with uploads := mapErase st.uploads req.uuid }
  if ourHash ≠ req.digestParam then
    ({ status := 400, errorCode := some ErrCode.DigestInvalid }, st1, [])
  else
    match o.uploadErr with
    | some _ => ({ status := 416, errorCode := some ErrCode.BlobUploadInvalid }, st1, [])
    | none =>
        let skylink := o.uploadLink (req.nmspace ++ "/blobs") req.digestParam ubuf
        let evs0 := [Event.objectStoreUpload skylink ubuf]
        match mapFind st1.txnMap req.uuid with
        | none => ({ status := 400, errorCode := some ErrCode.Unknown }, st1, evs0)
        | some txnOp =>
            let layer : LayerV2 :=
              { mediaType := "", digest := req.digestParam, skynetLink := skylink,
                uuid := req.uuid, blobDigests := txnOp.blobDigests, size := buf.length }
            match o.setLayerErr with
            | some _ =>
                ({ status := 400, errorCode := some ErrCode.Unknown }, st1,
                 evs0 ++ [Event.setLayer txnOp.txn layer])
            | none =>
                match o.commitErr with
                | some _ =>
                    ({ status := 400, errorCode := some ErrCode.Unknown }, st1,
                     evs0 ++ [Event.setLayer txnOp.txn layer, Event.commitTxn txnOp.txn])
                | none =>
                    ({ status := 201,
                       contentLength := some "0",
                       dockerContentDigest := some ourHash,
                       location := some ("/v2/" ++ req.nmspace ++ "/blobs/" ++ ourHash) },
                     { st1 with txnMap := mapErase st1.txnMap req.uuid },
                     evs0 ++ [Event.setLayer txnOp.txn layer, Event.commitTxn txnOp.txn])

/-- Modelled from the spec: `registry.getHttpUrlFromSkylink` is not among
the provided source files; per the spec's design notes it converts the
object-store link into the registry's own HTTP URL for that object (an
`https` URL mentioning the link, not a `/v2/...` registry path). -/
def getHttpUrlFromSkylink (fqdn skylink : String) : String :=
  "https://" ++ fqdn ++ "/" ++ skylink

/-- A `POST /v2/<name>/blobs/uploads/` request; `digestParam` is the
optional `?digest=` query parameter selecting the monolithic shortcut. -/
structure StartUploadRequest where
  nmspace : String
  digestParam : Option String
  contentTypeHeader : String
  body : List Nat

/-- Embeds `registry.StartUpload`.  With `?digest=`: verify the body hash,
upload to the object store, then `NewTxn` → `SetLayer` → `Commit` and answer
`201` with `Location: getHttpUrlFromSkylink(skylink)`.  Without it: open a
transaction, record it in `txnMap` under a fresh uuid, answer `202`. -/
def startUpload (o : StoreOracle) (st : BlobsState) (req : StartUploadRequest)
    (genUuid : String) (fqdn : String) : Response × BlobsState × List Event :=
  match req.digestParam with
  | some clientDigest =>
      if digest req.body ≠ clientDigest then
        ({ status := 400, errorCode := some ErrCode.DigestInvalid }, st, [])
      else
        match o.uploadErr with
        | some _ => ({ status := 416, errorCode := some ErrCode.BlobUploadInvalid }, st, [])
        | none =>
            let skylink := o.uploadLink req.nmspace (digest req.body) req.body
            let evs0 := [Event.objectStoreUpload skylink req.body]
            match o.newTxnErr with
            | some _ => ({ status := 500, errorCode := some ErrCode.Unknown }, st, evs0)
            | none =>
                let layer : LayerV2 :=
                  { mediaType := req.contentTypeHeader, digest := digest req.body,
                    skynetLink := skylink, uuid := genUuid, blobDigests := [],
                    size := req.body.length }
                let evs1 := evs0 ++ [Event.newTxn o.newTxnId]
                match o.setLayerErr with
                | some _ =>
                    ({ status := 400, errorCode := some ErrCode.BlobUploadInvalid }, st,
                     evs1 ++ [Event.setLayer o.newTxnId layer])
                | none =>
                    match o.commitErr with
                    | some _ =>
                        ({ status := 400, errorCode := some ErrCode.BlobUploadInvalid }, st,
                         evs1 ++ [Event.setLayer o.newTxnId layer, Event.commitTxn o.newTxnId])
                    | none =>
                        ({ status := 201,
                           location := some (getHttpUrlFromSkylink fqdn skylink) },
                         st,
                         evs1 ++ [Event.setLayer o.newTxnId layer, Event.commitTxn o.newTxnId])
  | none =>
      match o.newTxnErr with
      | some _ => ({ status := 500, errorCode := some ErrCode.Unknown }, st, [])
      | none =>
          let ts : TxnStore := { txn := o.newTxnId, blobDigests := [], timeoutMinutes := 30 }
          ({ status := 202,
             location := some ("/v2/" ++ req.nmspace ++ "/blobs/uploads/" ++ genUuid),
             contentLength := some "0",
             dockerUploadUuid := some genUuid,
             rangeHeader := some "0-0" },
           { st with txnMap := mapInsert st.txnMap genUuid ts },
           [Event.newTxn o.newTxnId])

/-- A `PUT /v2/<name>/manifests/<ref>` request.  `parseOk` is the model of
`json.Unmarshal` succeeding on the body; `layerDigests` are the digests of
the parsed manifest's layers (the output of the parse). -/
structure ManifestPutRequest where
  nmspace : String
  reference : String
  contentType : String
  body : List Nat
  parseOk : Bool
  layerDigests : List String

/-- Embeds `registry.PushManifest`: parse the body, hash it, upload the
manifest bytes to the object store, then inside one fresh metadata
transaction `SetManifest` → `SetConfig` → `Commit`; every store error after
the transaction is opened leads to an `Abort` before responding. -/
def pushManifest (o : StoreOracle) (req : ManifestPutRequest)
    (configUuid manifestUuid : String) (fqdn : String) : Response × List Event :=
  if req.parseOk = false then
    ({ status := 400, errorCode := some ErrCode.BlobUnknown }, [])
  else
    match o.uploadErr with
    | some _ => ({ status := 404, errorCode := some ErrCode.ManifestBlobUnknown }, [])
    | none =>
        let dig := digest req.body
        let skylink := o.uploadLink (req.nmspace ++ "/manifests") dig req.body
        let evs0 := [Event.objectStoreUpload skylink req.body]
        let mfc : ConfigV2 :=
          { uuid := configUuid, nmspace := req.nmspace, reference := req.reference,
            digest := dig, skylink := skylink, mediaType := req.contentType,
            layers := req.layerDigests, size := 0 }
        let val : ImageManifestV2 :=
          { uuid := manifestUuid, nmspace := req.nmspace, mediaType := "", schemaVersion := 2 }
        match o.newTxnErr with
        | some _ =>
            ({ status := 500, errorCode := some ErrCode.Unknown },
             evs0 ++ [Event.abortTxn o.newTxnId])
        | none =>
            let t := o.newTxnId
            let evs1 := evs0 ++ [Event.newTxn t]
            match o.setManifestErr with
            | some _ =>
                ({ status := 400, errorCode := some ErrCode.Unknown },
                 evs1 ++ [Event.setManifest t val, Event.abortTxn t])
            | none =>
                let evs2 := evs1 ++ [Event.setManifest t val]
                match o.setConfigErr with
                | some _ =>
                    ({ status := 400, errorCode := some ErrCode.Unknown },
                     evs2 ++ [Event.setConfig t mfc, Event.abortTxn t])
                | none =>
                    let evs3 := evs2 ++ [Event.setConfig t mfc]
                    match o.commitErr with
                    | some _ =>
                        ({ status := 500, errorCode := some ErrCode.Unknown },
                         evs3 ++ [Event.commitTxn t, Event.abortTxn t])
                    | none =>
                        ({ status := 201,
                           location := some (getHttpUrlFromSkylink fqdn skylink),
                           dockerContentDigest := some dig },
                         evs3 ++ [Event.commitTxn t])

/-- Outcomes of the read calls made by `PullLayer`: the `GetLayer` metadata
read and the object-store download (a function of the layer's link). -/
structure PullOracle where
  getLayer : Except String LayerV2
  download : String → Except String (List Nat)

/-- Embeds `registry.PullLayer`: resolve the layer row, download its bytes,
recompute the digest over the downloaded bytes, and serve them only when
the recomputed digest equals the requested one; a mismatch answers with
`BLOB_UPLOAD_UNKNOWN` and serves no blob bytes. -/
def pullLayer (o : PullOracle) (clientDigest : String) : Response :=
  match o.getLayer with
  | .error _ => { status := 404, errorCode := some ErrCode.BlobUnknown }
  | .ok layer =>
      if layer.skynetLink = "" then
        { status := 404, errorCode := some ErrCode.BlobUnknown }
      else
        match o.download layer.skynetLink with
        | .error _ => { status := 404, errorCode := some ErrCode.BlobUnknown }
        | .ok bz =>
            if digest bz ≠ clientDigest then
              { status := 404, errorCode := some ErrCode.BlobUploadUnknown }
            else
              { status := 200, contentLength := some (toString bz.length),
                dockerContentDigest := some (digest bz), blobBody := bz }

/-- Outcomes of the calls made by `DeleteLayer`: the `GetLayer` read, the
fresh transaction handle, and the per-row delete results. -/
structure DeleteOracle where
  getLayer : Except String LayerV2
  newTxnId : Nat := 0
  deleteLayerErr : Option String := none
  deleteBlobErr : String → Option String := fun _ => none
  commitErr : Option String := none

/-- The `for i := range blobs` loop of `DeleteLayer`: delete fragment rows
one by one, stopping at the first error. -/
def deleteBlobsLoop (o : DeleteOracle) (t : Nat) : List String → Option String × List Event
  | [] => (none, [])
  | d :: rest =>
      match o.deleteBlobErr d with
      | some e => (some e, [Event.deleteBlobRow t d])
      | none =>
          match deleteBlobsLoop o t rest with
          | (r, evs) => (r, Event.deleteBlobRow t d :: evs)

/-- Embeds `registry.DeleteLayer`: look the layer up, open a transaction,
`DeleteLayerV2`, then delete each referenced blob fragment, then commit.
Store errors answer `500` (a plain JSON log message, no registry error
envelope) and — exactly as in the source — no `Abort` is ever issued. -/
def deleteLayer (o : DeleteOracle) (digestParam : String) : Response × List Event :=
  match o.getLayer with
  | .error _ => ({ status := 404, errorCode := some ErrCode.BlobUnknown }, [])
  | .ok layer =>
      let t := o.newTxnId
      let evs0 := [Event.newTxn t]
      match o.deleteLayerErr with
      | some _ => ({ status := 500 }, evs0 ++ [Event.deleteLayerRow t digestParam])
      | none =>
          let evs1 := evs0 ++ [Event.deleteLayerRow t digestParam]
          match deleteBlobsLoop o t layer.blobDigests with
          | (some _, evs2) => ({ status := 500 }, evs1 ++ evs2)
          | (none, evs2) => ({ status := 202 }, evs1 ++ evs2 ++ [Event.commitTxn t])

/-- The `ListTags` response body: `name` and the `tags` field.  `tags`
models the Go `[]string` value: `none` is the `nil` slice, which
`encoding/json` marshals as JSON `null`, distinct from `some []` (the empty
JSON array `[]`). -/
structure TagsResponse where
  status : Nat
  errorCode : Option ErrCode := none
  name : String := ""
  tags : Option (List String) := none
  deriving DecidableEq

/-- Embeds `registry.ListTags` for a request whose `?n=` query parameter
parsed as a valid integer (`strconv.ParseInt` failures are answered
`404 TAG_INVALID` before this logic) and whose store read returned
`storedTags`.  `Except.error` models the Go runtime panic raised by the
out-of-range slice expression `tags[0:n]` when `n` exceeds the slice's
length — not an error return of the handler. -/
def listTags (storedTags : List String) (nmspace : String) (limit : Option Int) :
    Except String TagsResponse :=
  match limit with
  | none => .ok { status := 200, name := nmspace, tags := some storedTags }
  | some n =>
      if 0 < n then
        if n.toNat ≤ storedTags.length then
          .ok { status := 200, name := nmspace, tags := some (storedTags.take n.toNat) }
        else
          .error "slice bounds out of range"
      else if n = 0 then
        .ok { status := 200, name := nmspace, tags := none }
      else
        .ok { status := 200, name := nmspace, tags := some storedTags }

/-- The verified token claims visible to the ACL middleware (`auth.Claims`
via `jwt.Token`); only the subject matters here. -/
structure TokenClaims where
  subject : String
  deriving DecidableEq

/-- What the ACL middleware does with a request: run the downstream handler,
or answer `401 Unauthorized` without running it. -/
inductive AclOutcome where
  | handled
  | unauthorized
  deriving DecidableEq

/-- Embeds `auth.ACL` (`auth/jwt_middleware.go`): `GET` and `HEAD` always
reach the downstream handler; any other method reaches it only when a
verified token is present and its subject equals the `username` path
parameter.  `token = none` covers both a missing `user` context value and
claims of the wrong type. -/
def acl (method : String) (token : Option TokenClaims) (usernameParam : String) : AclOutcome :=
  if method = "GET" ∨ method = "HEAD" then
    .handled
  else
    match token with
    | none => .unauthorized
    | some c => if c.subject = usernameParam then .handled else .unauthorized

/-! ## Concrete fixtures used by witnesses and counterexamples -/

def helloBytes : List Nat := strBytes "hello"

def worldBytes : List Nat := strBytes " world"

def helloDigest : String :=
  "sha256:2cf24dba5fb0a30e26e83b2ac5b9e29e1b161e5c1fa7425e73043362938b9824"

def helloWorldDigest : String :=
  "sha256:b94d27b9934d3e08a52e52d7da7dabfac484efe37a5380ee9088f7ace2efcde9"

instance exceptDecEq {ε α : Type} [DecidableEq ε] [DecidableEq α] :
    DecidableEq (Except ε α) := fun a b =>
  match a, b with
  | Except.error x, Except.error y =>
      if h : x = y then isTrue (congrArg Except.error h)
      else isFalse (fun hc => h (Except.error.inj hc))
  | Except.error _, Except.ok _ => isFalse (fun hc => Except.noConfusion hc)
  | Except.ok _, Except.error _ => isFalse (fun hc => Except.noConfusion hc)
  | Except.ok x, Except.ok y =>
      if h : x = y then isTrue (congrArg Except.ok h)
      else isFalse (fun hc => h (Except.ok.inj hc))

/-! ## Map lemmas -/

theorem mapFind_insert_self {α : Type} (m : List (String × α)) (k : String) (v : α) :
    mapFind (mapInsert m k v) k = some v := by
  induction m with
  | nil => simp [mapInsert, mapFind]
  | cons hd tl ih =>
      obtain ⟨k0, v0⟩ := hd
      by_cases h : k0 = k
      · simp [mapInsert, h, mapFind]
      · simp [mapInsert, h, mapFind, ih]

/-! ## Claims -/

/-- C6: for every request through the ACL middleware, `GET` and `HEAD`
reach the downstream handler unconditionally, and any other method reaches
it exactly when a verified token is present whose subject claim equals the
`username` path parameter; in every other case the middleware answers
`401 Unauthorized` without invoking the handler. -/
theorem C6_acl_read_or_owner (method : String) (token : Option TokenClaims)
    (username : String) :
    acl method token username = AclOutcome.handled ↔
      (method = "GET" ∨ method = "HEAD" ∨
       ∃ c, token = some c ∧ c.subject = username) := by
  unfold acl
  by_cases h : method = "GET" ∨ method = "HEAD"
  · simp [h]
    tauto
  · simp [h]
    push_neg at h
    simp [h.1, h.2]
    cases token with
    | none => simp
    | some c =>
        by_cases hc : c.subject = username
        · simp [hc]
        · simp [hc]

/-- C7 (amended): for a valid integer limit `n` with `0 ≤ n ≤` the number
of stored tags, a positive `n` yields exactly the first `n` stored tags in
order (truncation from the head), while `n = 0` sets the tag slice to Go
`nil`, which marshals as JSON `null` — not as the empty array `[]`. -/
theorem C7_tags_limit (storedTags : List String) (ns : String) (n : Int)
    (hle : n.toNat ≤ storedTags.length) :
    (0 < n → listTags storedTags ns (some n) =
       .ok { status := 200, name := ns, tags := some (storedTags.take n.toNat) }) ∧
    (n = 0 → listTags storedTags ns (some n) =
       .ok { status := 200, name := ns, tags := none }) := by
  constructor
  · intro hpos
    simp [listTags, hpos, hle]
  · intro h0
    subst h0
    simp [listTags]

/-- C7 witness: with two stored tags and limit 1, the first tag alone is
returned. -/
theorem C7_tags_limit_witness :
    listTags ["v1", "v2"] "alice/app" (some 1) =
      .ok { status := 200, name := "alice/app", tags := some ["v1"] } :=
  (C7_tags_limit ["v1", "v2"] "alice/app" 1 (by decide)).1 (by decide)

/-- C7 counterexample: with limit 0 the handler sets the Go tag slice to
`nil` (JSON `null`), which is not the empty list the claim states. -/
theorem C7_counterexample :
    listTags ["v1"] "alice/app" (some 0) =
      Except.ok { status := 200, name := "alice/app", tags := none } ∧
    (Except.ok { status := 200, name := "alice/app", tags := none } :
        Except String TagsResponse) ≠
      Except.ok { status := 200, name := "alice/app", tags := some [] } := by
  decide

/-- C10: any valid integer limit strictly greater than the number of stored
tags drives the truncation step `tags[0:n]` out of bounds (a Go slice
bounds panic), rather than returning the full list or a typed error. -/
theorem C10_tags_slice_out_of_bounds (storedTags : List String) (ns : String)
    (n : Int) (h : (storedTags.length : Int) < n) :
    listTags storedTags ns (some n) = .error "slice bounds out of range" := by
  have hpos : 0 < n := lt_of_le_of_lt (Int.ofNat_nonneg _) h
  have hgt : ¬ n.toNat ≤ storedTags.length := by omega
  simp [listTags, hpos, hgt]

/-- C10 witness: one stored tag and limit 2 hits the out-of-bounds slice. -/
theorem C10_tags_slice_out_of_bounds_witness :
    listTags ["a"] "x/y" (some 2) = .error "slice bounds out of range" :=
  C10_tags_slice_out_of_bounds ["a"] "x/y" 2 (by decide)

/-- C2: with an open upload session (transaction present, `SetBlob`
healthy), a `PATCH` carrying `Content-Range` start `s` is accepted with
`202` and extends the buffer exactly when `s` equals the accumulated buffer
length; any other start answers `416` with `BLOB_UPLOAD_UNKNOWN` and leaves
the registry state untouched. -/
theorem C2_patch_range_check (o : StoreOracle) (st : BlobsState) (req : PatchRequest)
    (s e : Nat) (txnOp : TxnStore)
    (hcr : req.contentRange = some (s, e))
    (htxn : mapFind st.txnMap req.uuid = some txnOp)
    (hdb : o.setBlobErr = none) :
    ((uploadBlob o st req).1.status = 202 ↔
       s = (mapFindD st.uploads req.uuid []).length) ∧
    (s = (mapFindD st.uploads req.uuid []).length →
       mapFind (uploadBlob o st req).2.1.uploads req.uuid =
         some (mapFindD st.uploads req.uuid [] ++ req.body) ∧
       (uploadBlob o st req).2.2 =
         [Event.setBlob txnOp.txn
           { digest := digest (mapFindD st.uploads req.uuid [] ++ req.body),
             skylink := "", uuid := req.uuid, rangeStart := 0,
             rangeEnd := ((mapFindD st.uploads req.uuid [] ++ req.body).length
               + 4294967295) % 4294967296 }]) ∧
    (s ≠ (mapFindD st.uploads req.uuid []).length →
       (uploadBlob o st req).1.status = 416 ∧
       (uploadBlob o st req).1.errorCode = some ErrCode.BlobUploadUnknown ∧
       (uploadBlob o st req).2.1 = st) := by
  by_cases hs : s = (mapFindD st.uploads req.uuid []).length
  · simp [uploadBlob, hcr, hs, blobTransaction, htxn, hdb, mapFind_insert_self]
  · simp [uploadBlob, hcr, hs]

/-- An open chunked-upload session holding the 5 bytes of `"hello"` under
uuid `u3`, with transaction handle 3 and no committed fragments yet. -/
def chunkSt : BlobsState :=
  { uploads := [("u3", helloBytes)],
    txnMap := [("u3", { txn := 3, blobDigests := [], timeoutMinutes := 30 })] }

/-- A `PATCH` request appending the 6 bytes of `" world"` at start 5. -/
def chunkPatch : PatchRequest :=
  { nmspace := "bob/img", uuid := "u3", contentRange := some (5, 10),
    body := worldBytes }

/-- C2 witness: on a session whose buffer holds 5 bytes, a chunk with start
5 is accepted with 202. -/
theorem C2_patch_range_check_witness :
    (uploadBlob {} chunkSt chunkPatch).1.status = 202 :=
  ((C2_patch_range_check {} chunkSt chunkPatch 5 10
      { txn := 3, blobDigests := [], timeoutMinutes := 30 } rfl rfl rfl).1).mpr (by decide)

/-- C3 (amended): an accepted `PATCH` append stores a fragment row whose
digest is computed over the whole accumulated buffer (prior bytes plus the
chunk) — not over the chunk bytes alone — and appends that digest to the
session's committed fragment-digest list. -/
theorem C3_fragment_digest_over_buffer (o : StoreOracle) (st : BlobsState)
    (req : PatchRequest) (s e : Nat) (txnOp : TxnStore)
    (hcr : req.contentRange = some (s, e))
    (htxn : mapFind st.txnMap req.uuid = some txnOp)
    (hdb : o.setBlobErr = none)
    (hs : s = (mapFindD st.uploads req.uuid []).length) :
    (uploadBlob o st req).2.2 =
      [Event.setBlob txnOp.txn
        { digest := digest (mapFindD st.uploads req.uuid [] ++ req.body),
          skylink := "", uuid := req.uuid, rangeStart := 0,
          rangeEnd := ((mapFindD st.uploads req.uuid [] ++ req.body).length
            + 4294967295) % 4294967296 }] ∧
    mapFind (uploadBlob o st req).2.1.txnMap req.uuid =
      some { txnOp with blobDigests :=
        txnOp.blobDigests ++ [digest (mapFindD st.uploads req.uuid [] ++ req.body)] } := by
  simp [uploadBlob, hcr, hs, blobTransaction, htxn, hdb, mapFind_insert_self]

/-- C3 witness: appending a 6-byte chunk to a 5-byte buffer stores a
fragment whose digest covers all 11 accumulated bytes. -/
theorem C3_fragment_digest_over_buffer_witness :
    mapFind (uploadBlob {} chunkSt chunkPatch).2.1.txnMap "u3" =
      some { txn := 3, blobDigests := [digest (helloBytes ++ worldBytes)],
             timeoutMinutes := 30 } :=
  (C3_fragment_digest_over_buffer {} chunkSt chunkPatch 5 10
      { txn := 3, blobDigests := [], timeoutMinutes := 30 } rfl rfl rfl rfl).2

/-- C3 counterexample: with prior buffer `"hello"` and accepted chunk
`" world"`, the stored fragment's digest is the digest of `"hello world"`,
which differs from the digest of the chunk `" world"` alone — refuting the
claim that the fragment digest is computed over the chunk bytes alone. -/
theorem C3_counterexample :
    (uploadBlob {} chunkSt chunkPatch).2.2 =
      [Event.setBlob 3
        { digest := digest (helloBytes ++ worldBytes), skylink := "", uuid := "u3",
          rangeStart := 0, rangeEnd := 10 }] ∧
    digest (helloBytes ++ worldBytes) ≠ digest worldBytes := by
  decide

/-- C1 (amended): a finalize `PUT` whose `?digest=` differs from the digest
of the accumulated buffer answers `400 DIGEST_INVALID` with no store calls
at all (no layer write, no commit — and also no abort): only the in-memory
buffer is discarded, while the open transaction stays in the transaction
map, so a subsequent `PATCH` on the same uuid still finds the session. -/
theorem C1_put_digest_mismatch (o : StoreOracle) (st : BlobsState) (req : PutRequest)
    (hne : digest (mapFindD st.uploads req.uuid [] ++ req.body) ≠ req.digestParam) :
    completeUpload o st req =
      ({ status := 400, errorCode := some ErrCode.DigestInvalid },
       { st with uploads := mapErase st.uploads req.uuid }, []) := by
  simp [completeUpload, hne]

/-- C1 witness: a concrete mismatching finalize on the open session. -/
theorem C1_put_digest_mismatch_witness :
    completeUpload {} chunkSt
        { nmspace := "bob/img", uuid := "u3", digestParam := "sha256:deadbeef", body := [] } =
      ({ status := 400, errorCode := some ErrCode.DigestInvalid },
       { chunkSt with uploads := mapErase chunkSt.uploads "u3" }, []) :=
  C1_put_digest_mismatch {} chunkSt
    { nmspace := "bob/img", uuid := "u3", digestParam := "sha256:deadbeef", body := [] }
    (by decide)

/-- C1 counterexample: after a mismatching finalize the response is
`400 DIGEST_INVALID` and no layer is committed, but no abort happens and
the transaction map still holds the session, so a subsequent `PATCH` on the
same uuid is accepted with 202 rather than finding no session. -/
theorem C1_counterexample :
    (completeUpload {} chunkSt
        { nmspace := "bob/img", uuid := "u3", digestParam := "sha256:deadbeef", body := [] }).1.status = 400 ∧
    (completeUpload {} chunkSt
        { nmspace := "bob/img", uuid := "u3", digestParam := "sha256:deadbeef", body := [] }).1.errorCode =
      some ErrCode.DigestInvalid ∧
    Event.abortTxn 3 ∉
      (completeUpload {} chunkSt
        { nmspace := "bob/img", uuid := "u3", digestParam := "sha256:deadbeef", body := [] }).2.2 ∧
    mapFind (completeUpload {} chunkSt
        { nmspace := "bob/img", uuid := "u3", digestParam := "sha256:deadbeef", body := [] }).2.1.txnMap "u3" =
      some { txn := 3, blobDigests := [], timeoutMinutes := 30 } ∧
    (uploadBlob {}
        (completeUpload {} chunkSt
          { nmspace := "bob/img", uuid := "u3", digestParam := "sha256:deadbeef", body := [] }).2.1
        { nmspace := "bob/img", uuid := "u3", contentRange := none, body := helloBytes }).1.status = 202 := by
  decide

/-- A store oracle whose `SetBlob` call fails while `Abort` succeeds. -/
def oFailSetBlob : StoreOracle := { setBlobErr := some "blob write failed" }

/-- An oracle for `DeleteLayer` whose layer lookup succeeds and whose
`DeleteLayerV2` call fails. -/
def oFailDeleteLayer : DeleteOracle :=
  { getLayer := Except.ok
      { mediaType := "", digest := "sha256:layer", skynetLink := "sia://layer",
        uuid := "lu", blobDigests := ["sha256:b1"], size := 11 },
    newTxnId := 4,
    deleteLayerErr := some "delete failed" }

/-- C4 (amended): after a transaction is open, a failing `SetBlob` in the
chunked-upload path does call abort before responding, but the handler
returns the abort's result, so a successful abort turns the write error
into a `202` success response (the error is swallowed); and `DeleteLayer`
surfaces a failing `DeleteLayerV2` as `500` without ever calling abort on
its open transaction. -/
theorem C4_store_error_handling (o : StoreOracle) (st : BlobsState)
    (req : PatchRequest) (s e : Nat) (txnOp : TxnStore) (msg : String)
    (od : DeleteOracle) (layer : LayerV2) (emsg dparam : String)
    (hcr : req.contentRange = some (s, e))
    (hs : s = (mapFindD st.uploads req.uuid []).length)
    (htxn : mapFind st.txnMap req.uuid = some txnOp)
    (hsb : o.setBlobErr = some msg)
    (hab : o.abortErr = none)
    (hgl : od.getLayer = Except.ok layer)
    (hdl : od.deleteLayerErr = some emsg) :
    (uploadBlob o st req).1.status = 202 ∧
    Event.abortTxn txnOp.txn ∈ (uploadBlob o st req).2.2 ∧
    (deleteLayer od dparam).1.status = 500 ∧
    (∀ t, Event.abortTxn t ∉ (deleteLayer od dparam).2) := by
  refine ⟨?_, ?_, ?_, ?_⟩
  · simp [uploadBlob, hcr, hs, blobTransaction, htxn, hsb, hab]
  · simp [uploadBlob, hcr, hs, blobTransaction, htxn, hsb, hab]
  · simp [deleteLayer, hgl, hdl]
  · intro t
    simp [deleteLayer, hgl, hdl]

/-- C4 witness: concrete instances of both halves. -/
theorem C4_store_error_handling_witness :
    (uploadBlob oFailSetBlob chunkSt chunkPatch).1.status = 202 ∧
    (deleteLayer oFailDeleteLayer "sha256:layer").1.status = 500 :=
  ⟨(C4_store_error_handling oFailSetBlob chunkSt chunkPatch 5 10
      { txn := 3, blobDigests := [], timeoutMinutes := 30 } "blob write failed"
      oFailDeleteLayer
      { mediaType := "", digest := "sha256:layer", skynetLink := "sia://layer",
        uuid := "lu", blobDigests := ["sha256:b1"], size := 11 }
      "delete failed" "sha256:layer" rfl rfl rfl rfl rfl rfl rfl).1,
   (C4_store_error_handling oFailSetBlob chunkSt chunkPatch 5 10
      { txn := 3, blobDigests := [], timeoutMinutes := 30 } "blob write failed"
      oFailDeleteLayer
      { mediaType := "", digest := "sha256:layer", skynetLink := "sia://layer",
        uuid := "lu", blobDigests := ["sha256:b1"], size := 11 }
      "delete failed" "sha256:layer" rfl rfl rfl rfl rfl rfl rfl).2.2.1⟩

/-- C4 counterexample: a metadata write (`SetBlob`) fails after the upload
transaction was opened, yet the handler answers the success status `202`
(the abort succeeded and its `nil` result was propagated instead of the
write error) — refuting the claim that such errors are always surfaced. -/
theorem C4_counterexample :
    oFailSetBlob.setBlobErr = some "blob write failed" ∧
    (uploadBlob oFailSetBlob chunkSt chunkPatch).1.status = 202 ∧
    (uploadBlob oFailSetBlob chunkSt chunkPatch).1.errorCode = none ∧
    Event.abortTxn 3 ∈ (uploadBlob oFailSetBlob chunkSt chunkPatch).2.2 := by
  decide

/-- C5 (amended): a monolithic `POST …?digest=<d>` whose body hashes to `d`
uploads the body to the object store, writes and commits a layer row inside
a fresh transaction, and answers `201 Created` — but its `Location` header
is the registry HTTP URL derived from the object-store link, not
`/v2/<name>/blobs/<d>`; a body whose digest differs from `d` answers
`400 DIGEST_INVALID` with no store call at all. -/
theorem C5_monolithic_upload (o : StoreOracle) (st : BlobsState)
    (req : StartUploadRequest) (genUuid fqdn d : String)
    (hd : req.digestParam = some d) :
    (digest req.body ≠ d →
       startUpload o st req genUuid fqdn =
         ({ status := 400, errorCode := some ErrCode.DigestInvalid }, st, [])) ∧
    (digest req.body = d → o.uploadErr = none → o.newTxnErr = none →
     o.setLayerErr = none → o.commitErr = none →
       (startUpload o st req genUuid fqdn).1.status = 201 ∧
       (startUpload o st req genUuid fqdn).1.location =
         some (getHttpUrlFromSkylink fqdn (o.uploadLink req.nmspace d req.body)) ∧
       (startUpload o st req genUuid fqdn).2.2 =
         [Event.objectStoreUpload (o.uploadLink req.nmspace d req.body) req.body,
          Event.newTxn o.newTxnId,
          Event.setLayer o.newTxnId
            { mediaType := req.contentTypeHeader, digest := d,
              skynetLink := o.uploadLink req.nmspace d req.body, uuid := genUuid,
              blobDigests := [], size := req.body.length },
          Event.commitTxn o.newTxnId]) := by
  constructor
  · intro hne
    simp [startUpload, hd, hne]
  · intro hdig hu hn hl hc
    simp [startUpload, hd, hdig, hu, hn, hl, hc]

/-- A store oracle whose object-store upload returns a `sia://` link. -/
def oSia : StoreOracle := { uploadLink := fun ns d _ => "sia://" ++ ns ++ "/" ++ d }

/-- The monolithic push of the spec's scenario 1: body `"hello"` with its
correct digest supplied as the `?digest=` parameter. -/
def monoReq : StartUploadRequest :=
  { nmspace := "alice/app", digestParam := some helloDigest,
    contentTypeHeader := "", body := helloBytes }

/-- C5 witness: the matching monolithic push succeeds with 201 and its
`Location` is the registry URL of the object-store link. -/
theorem C5_monolithic_upload_witness :
    (startUpload oSia { uploads := [], txnMap := [] } monoReq "gen-uuid-1"
        "openregistry.dev").1.status = 201 ∧
    (startUpload oSia { uploads := [], txnMap := [] } monoReq "gen-uuid-1"
        "openregistry.dev").1.location =
      some (getHttpUrlFromSkylink "openregistry.dev"
        (oSia.uploadLink "alice/app" helloDigest helloBytes)) :=
  ⟨((C5_monolithic_upload oSia { uploads := [], txnMap := [] } monoReq "gen-uuid-1"
      "openregistry.dev" helloDigest rfl).2 (by decide) rfl rfl rfl rfl).1,
   ((C5_monolithic_upload oSia { uploads := [], txnMap := [] } monoReq "gen-uuid-1"
      "openregistry.dev" helloDigest rfl).2 (by decide) rfl rfl rfl rfl).2.1⟩

/-- C5 counterexample: the successful monolithic push of `"hello"` answers
201 but its `Location` header is the object-link URL
`https://openregistry.dev/sia://alice/app/sha256:2cf2…`, not the claimed
`/v2/alice/app/blobs/sha256:2cf2…`. -/
theorem C5_counterexample :
    (startUpload oSia { uploads := [], txnMap := [] } monoReq "gen-uuid-1"
        "openregistry.dev").1.status = 201 ∧
    (startUpload oSia { uploads := [], txnMap := [] } monoReq "gen-uuid-1"
        "openregistry.dev").1.location =
      some ("https://openregistry.dev/sia://alice/app/" ++ helloDigest) ∧
    (startUpload oSia { uploads := [], txnMap := [] } monoReq "gen-uuid-1"
        "openregistry.dev").1.location ≠
      some ("/v2/alice/app/blobs/" ++ helloDigest) := by
  decide

/-- The layer row and object bytes used by the pull-layer witness. -/
def pullOk : PullOracle :=
  { getLayer := Except.ok
      { mediaType := "", digest := helloDigest, skynetLink := "sia://blobs/hello",
        uuid := "lu", blobDigests := [], size := 5 },
    download := fun _ => Except.ok helloBytes }

/-- C8: pulling a layer recomputes the digest over the bytes fetched from
the object store; the handler serves the bytes with `200` and
`Docker-Content-Digest` set to the recomputed digest exactly when it equals
the requested digest, and a mismatch answers with `BLOB_UPLOAD_UNKNOWN`
serving no blob bytes. -/
theorem C8_pull_layer_verifies_digest (o : PullOracle) (clientDigest : String)
    (layer : LayerV2) (bz : List Nat)
    (hl : o.getLayer = Except.ok layer)
    (hs : layer.skynetLink ≠ "")
    (hd : o.download layer.skynetLink = Except.ok bz) :
    (digest bz = clientDigest →
       pullLayer o clientDigest =
         { status := 200, contentLength := some (toString bz.length),
           dockerContentDigest := some (digest bz), blobBody := bz }) ∧
    (digest bz ≠ clientDigest →
       pullLayer o clientDigest =
         { status := 404, errorCode := some ErrCode.BlobUploadUnknown }) := by
  constructor
  · intro h
    simp [pullLayer, hl, hs, hd, h]
  · intro h
    simp [pullLayer, hl, hs, hd, h]

/-- C8 witness: serving `"hello"` under its correct digest returns 200 with
the recomputed digest; requesting it under a wrong digest is refused with
`BLOB_UPLOAD_UNKNOWN`. -/
theorem C8_pull_layer_verifies_digest_witness :
    pullLayer pullOk helloDigest =
      { status := 200, contentLength := some (toString helloBytes.length),
        dockerContentDigest := some (digest helloBytes), blobBody := helloBytes } ∧
    pullLayer pullOk "sha256:deadbeef" =
      { status := 404, errorCode := some ErrCode.BlobUploadUnknown } :=
  ⟨(C8_pull_layer_verifies_digest pullOk helloDigest
      { mediaType := "", digest := helloDigest, skynetLink := "sia://blobs/hello",
        uuid := "lu", blobDigests := [], size := 5 }
      helloBytes rfl (by decide) rfl).1 (by decide),
   (C8_pull_layer_verifies_digest pullOk "sha256:deadbeef"
      { mediaType := "", digest := helloDigest, skynetLink := "sia://blobs/hello",
        uuid := "lu", blobDigests := [], size := 5 }
      helloBytes rfl (by decide) rfl).2 (by decide)⟩

/-- C9: a successful manifest push produces exactly the store-call sequence
object-store upload, then (inside one fresh transaction) `SetManifest`,
`SetConfig`, `Commit` — so the upload precedes the commit, and the config
row's recorded object key is the link of the already-uploaded bytes. -/
theorem C9_push_manifest_order (o : StoreOracle) (req : ManifestPutRequest)
    (cu mu fqdn : String)
    (hp : req.parseOk = true) (hu : o.uploadErr = none) (hn : o.newTxnErr = none)
    (hm : o.setManifestErr = none) (hc : o.setConfigErr = none)
    (hcm : o.commitErr = none) :
    (pushManifest o req cu mu fqdn).1.status = 201 ∧
    (pushManifest o req cu mu fqdn).2 =
      [Event.objectStoreUpload
         (o.uploadLink (req.nmspace ++ "/manifests") (digest req.body) req.body) req.body,
       Event.newTxn o.newTxnId,
       Event.setManifest o.newTxnId
         { uuid := mu, nmspace := req.nmspace, mediaType := "", schemaVersion := 2 },
       Event.setConfig o.newTxnId
         { uuid := cu, nmspace := req.nmspace, reference := req.reference,
           digest := digest req.body,
           skylink := o.uploadLink (req.nmspace ++ "/manifests") (digest req.body) req.body,
           mediaType := req.contentType, layers := req.layerDigests, size := 0 },
       Event.commitTxn o.newTxnId] := by
  simp [pushManifest, hp, hu, hn, hm, hc, hcm]

/-- A concrete manifest push request: the two bytes of an empty JSON object
with a successful parse yielding no layers. -/
def exManifestReq : ManifestPutRequest :=
  { nmspace := "alice/app", reference := "latest",
    contentType := "application/vnd.docker.distribution.manifest.v2+json",
    body := [123, 125], parseOk := true, layerDigests := [] }

/-- C9 witness: the concrete successful manifest push answers 201. -/
theorem C9_push_manifest_order_witness :
    (pushManifest {} exManifestReq "cfg-uuid" "mf-uuid" "reg.example").1.status = 201 :=
  (C9_push_manifest_order {} exManifestReq "cfg-uuid" "mf-uuid" "reg.example"
    rfl rfl rfl rfl rfl rfl).1
